import Mathlib

/-!
Verification of the OTP-login core of the elearn service.

The development shallowly embeds the relevant Python source files:
  apps/base/redis_service.py  (RedisService: OTP and pending-profile storage)
  apps/base/auth.py           (JWTTokenGenerator, JWTAuthentication)
  apps/user/views.py          (LoginView.post, RefreshTokenView.post)

Modelling conventions:
  * The Redis backend is a pair of association lists (keys in the source are
    the disjoint namespaces "otp:<code>" and "user_data:<phone>", so the two
    namespaces are modelled as two separate maps keyed by code / phone).
  * TTL expiry is modelled as absence: a record present in the map is live,
    and expiry or deletion both remove it.  The ttl argument of setex has no
    other observable effect in the claims considered.
  * Every redis client call in the source is wrapped in try/except; a raised
    exception is modelled by a Bool fault flag per call.  With the flag set,
    store_otp/delete_otp return false and leave the state unchanged, and
    get returns none - exactly what the except branches of the source do.
  * jwt.encode/jwt.decode are modelled by a Token carrying its payload and
    the signing key; decode succeeds iff the keys agree and the token is not
    expired, which is the observable behaviour of HS256 encode/decode.
  * random.choices(string.digits, k=length) is modelled by an arbitrary
    index source rand : Nat -> Nat, each draw reduced modulo the size of the
    digit alphabet, matching that every draw is a uniform choice from the
    population list.
-/

/-- Modelled from the spec: the configuration constants `OTP_LENGTH` and
`OTP_TTL` are read from the Django settings module, which does not define
them in the provided source; the spec gives the defaults (6 digits, 120
seconds). -/
structure Settings where
  OTP_LENGTH : Nat
  OTP_TTL : Nat
deriving Repr, DecidableEq

def defaultSettings : Settings := ⟨6, 120⟩

/-- Value stored under key `otp:<code>`: the dict built in
`RedisService.store_otp` with fields `otp` and `phone_number`. -/
structure OTPData where
  otp : String
  phone_number : String
deriving Repr, DecidableEq

/-- Value stored under key `user_data:<phone>`: the profile snapshot the bot
stores via `store_user_data` and `LoginView.post` reads back. -/
structure UserData where
  first_name : String
  last_name : String
  tg_user_id : Option Int
deriving Repr, DecidableEq

/-- Association-list lookup, modelling `redis.get key`. -/
def lookupKey {α : Type} (k : String) : List (String × α) → Option α
  | [] => none
  | (k2, v) :: rest => if k2 = k then some v else lookupKey k rest

/-- Association-list overwrite-or-append, modelling `redis.setex key ttl v`
(last writer wins on the same key). -/
def setKey {α : Type} (k : String) (v : α) : List (String × α) → List (String × α)
  | [] => [(k, v)]
  | (k2, v2) :: rest => if k2 = k then (k, v) :: rest else (k2, v2) :: setKey k v rest

/-- Association-list removal, modelling `redis.delete key`. -/
def delKey {α : Type} (k : String) : List (String × α) → List (String × α)
  | [] => []
  | (k2, v2) :: rest => if k2 = k then delKey k rest else (k2, v2) :: delKey k rest

/-- State of the Redis backend: the `otp:` namespace keyed by code and the
`user_data:` namespace keyed by phone number. -/
structure RedisState where
  otpStore : List (String × OTPData)
  userStore : List (String × UserData)
deriving Repr, DecidableEq

def emptyRedis : RedisState := ⟨[], []⟩

namespace RedisService

/-- Digit alphabet `string.digits` of the source. -/
def digits : List Char := ['0', '1', '2', '3', '4', '5', '6', '7', '8', '9']

/-- Model of `random.choices(population, k)` : k independent uniform draws
from the population, driven by an arbitrary index source. -/
def choices (population : List Char) (k : Nat) (rand : Nat → Nat) : List Char :=
  (List.range k).map (fun i => population.getD (rand i % population.length) ' ')

/-- `RedisService.generate_otp(length=None)`: joins `length` random digits;
a `none` length falls back to `settings.OTP_LENGTH`. -/
def generate_otp (cfg : Settings) (length : Option Nat) (rand : Nat → Nat) : String :=
  let len := length.getD cfg.OTP_LENGTH
  String.mk (choices digits len rand)

/-- `RedisService.store_otp`: writes `{otp, phone_number}` under key
`otp:<otp>`; on a backend fault the except branch returns False with no
write. -/
def store_otp (phone_number otp : String) (fault : Bool) (s : RedisState) :
    Bool × RedisState :=
  if fault then (false, s)
  else (true, { s with otpStore := setKey otp ⟨otp, phone_number⟩ s.otpStore })

/-- `RedisService.get_otp_data`: reads key `otp:<otp>`; on a backend fault
the except branch returns None, indistinguishable from a miss. -/
def get_otp_data (otp : String) (fault : Bool) (s : RedisState) : Option OTPData :=
  if fault then none else lookupKey otp s.otpStore

/-- `RedisService.delete_otp`: deletes key `otp:<otp>`; on a backend fault
the except branch returns False with no deletion. -/
def delete_otp (otp : String) (fault : Bool) (s : RedisState) : Bool × RedisState :=
  if fault then (false, s)
  else (true, { s with otpStore := delKey otp s.otpStore })

/-- `RedisService.verify_otp`: get, check the stored `otp` field against the
looked-up code, delete on success (ignoring the delete result), and return
the record; any other outcome returns None. -/
def verify_otp (otp : String) (getFault delFault : Bool) (s : RedisState) :
    Option OTPData × RedisState :=
  match get_otp_data otp getFault s with
  | some d =>
      if d.otp = otp then (some d, (delete_otp otp delFault s).2)
      else (none, s)
  | none => (none, s)

/-- `RedisService.store_user_data`: writes the snapshot under
`user_data:<phone>`. -/
def store_user_data (phone_number : String) (ud : UserData) (fault : Bool)
    (s : RedisState) : Bool × RedisState :=
  if fault then (false, s)
  else (true, { s with userStore := setKey phone_number ud s.userStore })

/-- `RedisService.get_user_data`: reads key `user_data:<phone>`. -/
def get_user_data (phone_number : String) (fault : Bool) (s : RedisState) :
    Option UserData :=
  if fault then none else lookupKey phone_number s.userStore

/-- `RedisService.delete_user_data`: deletes key `user_data:<phone>`. -/
def delete_user_data (phone_number : String) (fault : Bool) (s : RedisState) :
    Bool × RedisState :=
  if fault then (false, s)
  else (true, { s with userStore := delKey phone_number s.userStore })

end RedisService

/-- Durable user record (apps/user/models.py `User`, id from `BaseModel`:
a UUID, modelled as a String).  Only the fields the login and token code
touches are kept. -/
structure Account where
  id : String
  phone_number : String
  first_name : String
  last_name : String
  email : Option String
  tg_user_id : Option Int
  is_verified : Bool
deriving Repr, DecidableEq

/-- JWT payload as built by `JWTTokenGenerator`.  `user_id` holds
`str(user.id)`; `typ` models the optional `type` claim (the refresh
discriminator); `phone` models the `phone_number` claim of access tokens. -/
structure Payload where
  user_id : String
  phone : Option String
  typ : Option String
  exp : Nat
  iat : Nat
deriving Repr, DecidableEq

/-- Signed token: `jwt.encode(payload, key, HS256)` is modelled as the
payload together with the signing key; `jwt.decode` with key k succeeds
iff the embedded key equals k and the token is unexpired. -/
structure Token where
  payload : Payload
  key : Nat
deriving Repr, DecidableEq

namespace JWTTokenGenerator

/-- Access-token lifetime: `timedelta(days=7)` in seconds. -/
def accessLifetime : Nat := 7 * 24 * 3600

/-- Refresh-token lifetime: `timedelta(days=30)` in seconds. -/
def refreshLifetime : Nat := 30 * 24 * 3600

/-- `JWTTokenGenerator.generate_token(user)`: payload with `user_id`,
`phone_number`, 7-day expiry, no `type` claim. -/
def generate_token (user : Account) (now key : Nat) : Token :=
  ⟨⟨user.id, some user.phone_number, none, now + accessLifetime, now⟩, key⟩

/-- `JWTTokenGenerator.generate_refresh_token(user)`: payload with
`user_id`, `type = "refresh"`, 30-day expiry. -/
def generate_refresh_token (user : Account) (now key : Nat) : Token :=
  ⟨⟨user.id, none, some "refresh", now + refreshLifetime, now⟩, key⟩

/-- `JWTTokenGenerator.verify_token`: jwt.decode, returning the payload on
a valid signature and unexpired token, None otherwise. -/
def verify_token (t : Token) (key now : Nat) : Option Payload :=
  if t.key = key ∧ now < t.payload.exp then some t.payload else none

end JWTTokenGenerator

namespace JWTAuthentication

/-- Outcome of `JWTAuthentication.authenticate` after the Bearer header has
been parsed: either the authenticated account or the message of the
AuthenticationFailed exception raised. -/
inductive AuthResult where
  | ok (user : Account)
  | failed (msg : String)
deriving Repr, DecidableEq

/-- `JWTAuthentication.authenticate`: jwt.decode the bearer token, require
a non-empty `user_id` claim, and look the user up by id.  The source never
inspects the `type` claim here. -/
def authenticate (t : Token) (key now : Nat) (db : List Account) : AuthResult :=
  match JWTTokenGenerator.verify_token t key now with
  | none => .failed "Invalid token"
  | some payload =>
      if payload.user_id = "" then .failed "Invalid token payload"
      else
        match db.find? (fun a => a.id = payload.user_id) with
        | some user => .ok user
        | none => .failed "User not found"

end JWTAuthentication

/-- Per-request fault schedule for the store calls made by
`LoginView.post`, one flag per redis client call in source order. -/
structure Faults where
  verifyGet : Bool
  verifyDel : Bool
  getUser : Bool
  delUser : Bool
deriving Repr, DecidableEq

def noFaults : Faults := ⟨false, false, false, false⟩

/-- HTTP-level outcome of `LoginView.post` (after serializer validation).
`invalidOrExpiredCode` is the 401 "Invalid or expired OTP code" response,
`profileNotFound` the 401 "User data not found. Please try again."
response.  No 5xx outcome exists in the source: every store fault is
absorbed by the except branches of RedisService. -/
inductive LoginResult where
  | invalidOrExpiredCode
  | profileNotFound
  | success (access_token refresh_token : Token) (user : Account)
      (is_new_user : Bool)
deriving Repr, DecidableEq

namespace LoginView

/-- Account-resolution step of `LoginView.post`: `User.objects.get` by
phone number, falling back to `User.objects.create` with the snapshot
fields and `is_verified=True`.  `newId` is the UUID the database assigns
to a created row. -/
def resolveUser (phone : String) (ud : UserData) (newId : String)
    (db : List Account) : Account × Bool × List Account :=
  match db.find? (fun a => a.phone_number = phone) with
  | some user => (user, false, db)
  | none =>
      let user : Account :=
        ⟨newId, phone, ud.first_name, ud.last_name, none, ud.tg_user_id, true⟩
      (user, true, db ++ [user])

/-- `LoginView.post` on a validated otp string: verify_otp, get_user_data,
resolve or create the account, mint both tokens, delete the user data. -/
def post (otp : String) (f : Faults) (s : RedisState) (db : List Account)
    (newId : String) (now key : Nat) :
    LoginResult × RedisState × List Account :=
  match RedisService.verify_otp otp f.verifyGet f.verifyDel s with
  | (none, s1) => (.invalidOrExpiredCode, s1, db)
  | (some otpData, s1) =>
      let phone := otpData.phone_number
      match RedisService.get_user_data phone f.getUser s1 with
      | none => (.profileNotFound, s1, db)
      | some ud =>
          let r := resolveUser phone ud newId db
          let token := JWTTokenGenerator.generate_token r.1 now key
          let refresh := JWTTokenGenerator.generate_refresh_token r.1 now key
          let s2 := (RedisService.delete_user_data phone f.delUser s1).2
          (.success token refresh r.1 r.2.1, s2, r.2.2)

end LoginView

/-- Response body of a successful `RefreshTokenView.post`: the source's
`response_data` dict holds only `access_token`; the absent refresh-token
field is modelled as a constant `none` so non-rotation is expressible. -/
structure RefreshResponse where
  access_token : Token
  refresh_token : Option Token
deriving Repr, DecidableEq

/-- HTTP-level outcome of `RefreshTokenView.post` (after serializer
validation). -/
inductive RefreshResult where
  | ok (resp : RefreshResponse)
  | invalidRefreshToken
  | userNotFound
deriving Repr, DecidableEq

namespace RefreshTokenView

/-- `RefreshTokenView.post`: verify the token, require the `type` claim to
equal "refresh", look up the subject, and issue a new access token only. -/
def post (refresh_token : Token) (key now : Nat) (db : List Account) :
    RefreshResult :=
  match JWTTokenGenerator.verify_token refresh_token key now with
  | none => .invalidRefreshToken
  | some payload =>
      if payload.typ ≠ some "refresh" then .invalidRefreshToken
      else
        match db.find? (fun a => a.id = payload.user_id) with
        | some user =>
            .ok ⟨JWTTokenGenerator.generate_token user now key, none⟩
        | none => .userNotFound

end RefreshTokenView

/-! Interleaving semantics for concurrent redeemers.  One thread running
`RedisService.verify_otp` performs two atomic backend operations: the get
(plus the pure field check) and the delete.  `pc = 0` is before the get,
`pc = 1` is between get and delete on the success path, `pc = 2` is done,
with `res` the value the thread will return to its caller. -/

structure ThreadState where
  pc : Nat
  res : Option OTPData
deriving Repr, DecidableEq

def initThread : ThreadState := ⟨0, none⟩

/-- One atomic step of a thread executing `verify_otp otp` (no faults). -/
def threadStep (otp : String) (t : ThreadState) (s : RedisState) :
    ThreadState × RedisState :=
  match t.pc with
  | 0 =>
      match RedisService.get_otp_data otp false s with
      | some d => if d.otp = otp then (⟨1, some d⟩, s) else (⟨2, none⟩, s)
      | none => (⟨2, none⟩, s)
  | 1 => (⟨2, t.res⟩, (RedisService.delete_otp otp false s).2)
  | _ => (t, s)

/-- Run two threads redeeming the same code under a schedule: `true` lets
thread 1 take the next atomic step, `false` thread 2. -/
def run2 (otp : String) : List Bool → ThreadState → ThreadState → RedisState →
    ThreadState × ThreadState × RedisState
  | [], t1, t2, s => (t1, t2, s)
  | true :: rest, t1, t2, s =>
      let r := threadStep otp t1 s
      run2 otp rest r.1 t2 r.2
  | false :: rest, t1, t2, s =>
      let r := threadStep otp t2 s
      run2 otp rest t1 r.1 r.2

/-- Invariant of the `otp:` namespace: every stored record's embedded `otp`
field equals its key. -/
def OtpInv (s : RedisState) : Prop := ∀ p ∈ s.otpStore, p.2.otp = p.1

/-! Association-list lemmas about the store primitives. -/

theorem lookupKey_setKey_self {α : Type} (k : String) (v : α)
    (l : List (String × α)) : lookupKey k (setKey k v l) = some v := by
  induction l with
  | nil => simp [setKey, lookupKey]
  | cons p rest ih =>
      obtain ⟨k2, v2⟩ := p
      by_cases h : k2 = k <;> simp [setKey, lookupKey, h, ih]

theorem lookupKey_delKey_self {α : Type} (k : String)
    (l : List (String × α)) : lookupKey k (delKey k l) = none := by
  induction l with
  | nil => simp [delKey, lookupKey]
  | cons p rest ih =>
      obtain ⟨k2, v2⟩ := p
      by_cases h : k2 = k <;> simp [delKey, lookupKey, h, ih]

theorem lookupKey_mem {α : Type} {k : String} {v : α}
    {l : List (String × α)} (h : lookupKey k l = some v) : (k, v) ∈ l := by
  induction l with
  | nil => simp [lookupKey] at h
  | cons p rest ih =>
      obtain ⟨k2, v2⟩ := p
      by_cases hk : k2 = k
      · subst hk
        simp [lookupKey] at h
        subst h
        exact List.mem_cons_self _ _
      · simp [lookupKey, hk] at h
        exact List.mem_cons_of_mem _ (ih h)

theorem mem_setKey {α : Type} {k : String} {v : α} {p : String × α}
    {l : List (String × α)} (h : p ∈ setKey k v l) : p = (k, v) ∨ p ∈ l := by
  induction l with
  | nil => simp [setKey] at h; exact Or.inl h
  | cons q rest ih =>
      obtain ⟨k2, v2⟩ := q
      by_cases hk : k2 = k
      · subst hk
        simp only [setKey, if_pos rfl] at h
        rcases List.mem_cons.mp h with h1 | h1
        · exact Or.inl h1
        · exact Or.inr (List.mem_cons_of_mem _ h1)
      · simp only [setKey, if_neg hk] at h
        rcases List.mem_cons.mp h with h1 | h1
        · exact Or.inr (h1 ▸ List.mem_cons_self _ _)
        · rcases ih h1 with h2 | h2
          · exact Or.inl h2
          · exact Or.inr (List.mem_cons_of_mem _ h2)

theorem mem_delKey {α : Type} {k : String} {p : String × α}
    {l : List (String × α)} (h : p ∈ delKey k l) : p ∈ l := by
  induction l with
  | nil => simp [delKey] at h
  | cons q rest ih =>
      obtain ⟨k2, v2⟩ := q
      by_cases hk : k2 = k
      · simp only [delKey, if_pos hk] at h
        exact List.mem_cons_of_mem _ (ih h)
      · simp only [delKey, if_neg hk] at h
        rcases List.mem_cons.mp h with h1 | h1
        · exact h1 ▸ List.mem_cons_self _ _
        · exact List.mem_cons_of_mem _ (ih h1)

theorem verify_otp_hit (c : String) (g del : Bool) (s : RedisState) (d : OTPData)
    (hg : RedisService.get_otp_data c g s = some d) (hd : d.otp = c) :
    RedisService.verify_otp c g del s =
      (some d, (RedisService.delete_otp c del s).2) := by
  simp [RedisService.verify_otp, hg, hd]

theorem verify_otp_miss (c : String) (g del : Bool) (s : RedisState)
    (hg : RedisService.get_otp_data c g s = none) :
    RedisService.verify_otp c g del s = (none, s) := by
  simp [RedisService.verify_otp, hg]

theorem verify_otp_mismatch (c : String) (g del : Bool) (s : RedisState)
    (d : OTPData) (hg : RedisService.get_otp_data c g s = some d)
    (hd : ¬d.otp = c) :
    RedisService.verify_otp c g del s = (none, s) := by
  simp [RedisService.verify_otp, hg, hd]

theorem otpInv_empty : OtpInv emptyRedis := by
  intro p hp
  simp [emptyRedis] at hp

theorem otpInv_store_otp (ph c : String) (f : Bool) (s : RedisState)
    (h : OtpInv s) : OtpInv (RedisService.store_otp ph c f s).2 := by
  cases f with
  | true => exact h
  | false =>
      intro p hp
      rcases mem_setKey hp with h1 | h1
      · subst h1; rfl
      · exact h p h1

theorem otpInv_delete_otp (c : String) (f : Bool) (s : RedisState)
    (h : OtpInv s) : OtpInv (RedisService.delete_otp c f s).2 := by
  cases f with
  | true => exact h
  | false => exact fun p hp => h p (mem_delKey hp)

theorem otpInv_verify_otp (c : String) (g del : Bool) (s : RedisState)
    (h : OtpInv s) : OtpInv (RedisService.verify_otp c g del s).2 := by
  cases hg : RedisService.get_otp_data c g s with
  | none => rw [verify_otp_miss c g del s hg]; exact h
  | some d =>
      by_cases hd : d.otp = c
      · rw [verify_otp_hit c g del s d hg hd]
        exact otpInv_delete_otp c del s h
      · rw [verify_otp_mismatch c g del s d hg hd]
        exact h

theorem otpInv_store_user_data (ph : String) (ud : UserData) (f : Bool)
    (s : RedisState) (h : OtpInv s) :
    OtpInv (RedisService.store_user_data ph ud f s).2 := by
  cases f with
  | true => exact h
  | false => exact h

theorem otpInv_delete_user_data (ph : String) (f : Bool) (s : RedisState)
    (h : OtpInv s) : OtpInv (RedisService.delete_user_data ph f s).2 := by
  cases f with
  | true => exact h
  | false => exact h

theorem otpInv_get_hit (c : String) (s : RedisState) (d : OTPData)
    (h : OtpInv s) (hg : RedisService.get_otp_data c false s = some d) :
    d.otp = c := by
  have hm : (c, d) ∈ s.otpStore := by
    apply lookupKey_mem
    simpa [RedisService.get_otp_data] using hg
  exact h (c, d) hm

/-- C10: the invariant that every record in the `otp:` namespace has its
embedded `otp` field equal to its key holds initially and is preserved by
every store operation (store_otp writes the key and the embedded field
from the same string), and under it the equality check in `verify_otp`
accepts every hit: a found record is never rejected. -/
theorem C10_otp_key_invariant :
    OtpInv emptyRedis ∧
    (∀ ph c f s, OtpInv s → OtpInv (RedisService.store_otp ph c f s).2) ∧
    (∀ c f s, OtpInv s → OtpInv (RedisService.delete_otp c f s).2) ∧
    (∀ c g del s, OtpInv s → OtpInv (RedisService.verify_otp c g del s).2) ∧
    (∀ ph ud f s, OtpInv s → OtpInv (RedisService.store_user_data ph ud f s).2) ∧
    (∀ ph f s, OtpInv s → OtpInv (RedisService.delete_user_data ph f s).2) ∧
    (∀ c s d, OtpInv s → RedisService.get_otp_data c false s = some d →
      d.otp = c ∧ (RedisService.verify_otp c false false s).1 = some d) := by
  refine ⟨otpInv_empty,
    fun ph c f s h => otpInv_store_otp ph c f s h,
    fun c f s h => otpInv_delete_otp c f s h,
    fun c g del s h => otpInv_verify_otp c g del s h,
    fun ph ud f s h => otpInv_store_user_data ph ud f s h,
    fun ph f s h => otpInv_delete_user_data ph f s h,
    fun c s d h hg => ?_⟩
  have hd : d.otp = c := otpInv_get_hit c s d h hg
  exact ⟨hd, by rw [verify_otp_hit c false false s d hg hd]⟩

/-- C10 witness: the invariant and the always-accepting check evaluated on
a concrete one-record store. -/
theorem C10_witness :
    OTPData.otp ⟨"482913", "998931159963"⟩ = "482913" ∧
    (RedisService.verify_otp "482913" false false
      ⟨[("482913", ⟨"482913", "998931159963"⟩)], []⟩).1 =
      some ⟨"482913", "998931159963"⟩ :=
  C10_otp_key_invariant.2.2.2.2.2.2 "482913"
    ⟨[("482913", ⟨"482913", "998931159963"⟩)], []⟩
    ⟨"482913", "998931159963"⟩
    (by intro p hp; rw [List.mem_singleton] at hp; subst hp; rfl)
    (by rfl)

theorem digits_getD_isDigit (n : Nat) :
    (RedisService.digits.getD (n % RedisService.digits.length) ' ').isDigit = true := by
  have hl : RedisService.digits.length = 10 := by decide
  rw [hl]
  exact (by decide : ∀ m : Fin 10, (RedisService.digits.getD m.val ' ').isDigit = true)
    ⟨n % 10, Nat.mod_lt _ (by decide)⟩

/-- C7: for every requestCode call, the generated code is a string of
exactly the configured length (`settings.OTP_LENGTH`, default 6 per the
spec-modelled settings) and every character is a decimal digit. -/
theorem C7_code_length_and_digits (cfg : Settings) (rand : Nat → Nat) :
    (RedisService.generate_otp cfg none rand).length = cfg.OTP_LENGTH ∧
    (RedisService.generate_otp cfg none rand).data.all Char.isDigit = true ∧
    defaultSettings.OTP_LENGTH = 6 := by
  refine ⟨?_, ?_, rfl⟩
  · simp [RedisService.generate_otp, RedisService.choices, String.length]
  · simp only [RedisService.generate_otp, RedisService.choices, Option.getD]
    rw [List.all_eq_true]
    intro c hc
    simp only [List.mem_map, List.mem_range] at hc
    obtain ⟨i, _, rfl⟩ := hc
    exact digits_getD_isDigit (rand i)


/-! Evaluation lemmas for `LoginView.post`, one per control-flow branch. -/

theorem loginPost_of_verify_none (otp : String) (f : Faults) (s s1 : RedisState)
    (db : List Account) (newId : String) (now key : Nat)
    (hv : RedisService.verify_otp otp f.verifyGet f.verifyDel s = (none, s1)) :
    LoginView.post otp f s db newId now key = (.invalidOrExpiredCode, s1, db) := by
  simp [LoginView.post, hv]

theorem loginPost_of_no_profile (otp : String) (f : Faults) (s s1 : RedisState)
    (db : List Account) (newId : String) (now key : Nat) (d : OTPData)
    (hv : RedisService.verify_otp otp f.verifyGet f.verifyDel s = (some d, s1))
    (hu : RedisService.get_user_data d.phone_number f.getUser s1 = none) :
    LoginView.post otp f s db newId now key = (.profileNotFound, s1, db) := by
  simp [LoginView.post, hv, hu]

theorem loginPost_of_profile (otp : String) (f : Faults) (s s1 : RedisState)
    (db : List Account) (newId : String) (now key : Nat) (d : OTPData)
    (ud : UserData)
    (hv : RedisService.verify_otp otp f.verifyGet f.verifyDel s = (some d, s1))
    (hu : RedisService.get_user_data d.phone_number f.getUser s1 = some ud) :
    LoginView.post otp f s db newId now key =
      (.success
        (JWTTokenGenerator.generate_token
          (LoginView.resolveUser d.phone_number ud newId db).1 now key)
        (JWTTokenGenerator.generate_refresh_token
          (LoginView.resolveUser d.phone_number ud newId db).1 now key)
        (LoginView.resolveUser d.phone_number ud newId db).1
        (LoginView.resolveUser d.phone_number ud newId db).2.1,
       (RedisService.delete_user_data d.phone_number f.delUser s1).2,
       (LoginView.resolveUser d.phone_number ud newId db).2.2) := by
  simp [LoginView.post, hv, hu]

theorem resolveUser_found (phone : String) (ud : UserData) (newId : String)
    (db : List Account) (u : Account)
    (h : db.find? (fun a => a.phone_number = phone) = some u) :
    LoginView.resolveUser phone ud newId db = (u, false, db) := by
  simp [LoginView.resolveUser, h]

theorem resolveUser_new (phone : String) (ud : UserData) (newId : String)
    (db : List Account)
    (h : db.find? (fun a => a.phone_number = phone) = none) :
    LoginView.resolveUser phone ud newId db =
      (⟨newId, phone, ud.first_name, ud.last_name, none, ud.tg_user_id, true⟩,
       true,
       db ++ [⟨newId, phone, ud.first_name, ud.last_name, none, ud.tg_user_id, true⟩]) := by
  simp [LoginView.resolveUser, h]

/-- C1: a code successfully written by the request-code step and still
live is redeemable exactly once: the first LoginView redeem succeeds
(given the pending profile is present), and a second redeem of the same
code after the first completed returns the 401 InvalidOrExpiredCode
outcome, because the successful redemption deleted the PendingOTP record
from the store. -/
theorem C1_redeem_exactly_once (s : RedisState) (db : List Account)
    (phone code newId newId2 : String) (now key : Nat) (ud : UserData)
    (hud : lookupKey phone s.userStore = some ud) :
    (RedisService.store_otp phone code false s).1 = true ∧
    ∃ t rt u b s2 db2,
      LoginView.post code noFaults (RedisService.store_otp phone code false s).2
        db newId now key = (.success t rt u b, s2, db2) ∧
      lookupKey code s2.otpStore = none ∧
      (LoginView.post code noFaults s2 db2 newId2 now key).1 =
        .invalidOrExpiredCode := by
  refine ⟨rfl, ?_⟩
  have hgo : RedisService.get_otp_data code false
      (RedisService.store_otp phone code false s).2 = some ⟨code, phone⟩ := by
    show lookupKey code (setKey code ⟨code, phone⟩ s.otpStore) = some ⟨code, phone⟩
    exact lookupKey_setKey_self _ _ _
  have hv := verify_otp_hit code false false
    (RedisService.store_otp phone code false s).2 ⟨code, phone⟩ hgo rfl
  have hu : RedisService.get_user_data (OTPData.phone_number ⟨code, phone⟩) false
      (RedisService.delete_otp code false
        (RedisService.store_otp phone code false s).2).2 = some ud := by
    show lookupKey phone s.userStore = some ud
    exact hud
  have hpost := loginPost_of_profile code noFaults
    (RedisService.store_otp phone code false s).2 _ db newId now key
    ⟨code, phone⟩ ud hv hu
  refine ⟨_, _, _, _, _, _, hpost, ?_, ?_⟩
  · show lookupKey code (delKey code (setKey code ⟨code, phone⟩ s.otpStore)) = none
    exact lookupKey_delKey_self _ _
  · have hmiss : RedisService.get_otp_data code false
        (RedisService.delete_user_data (OTPData.phone_number ⟨code, phone⟩)
          noFaults.delUser
          (RedisService.delete_otp code false
            (RedisService.store_otp phone code false s).2).2).2 = none := by
      show lookupKey code (delKey code (setKey code ⟨code, phone⟩ s.otpStore)) = none
      exact lookupKey_delKey_self _ _
    rw [loginPost_of_verify_none code noFaults _ _ _ newId2 now key
      (verify_otp_miss code false false _ hmiss)]

/-- C1 witness: a concrete store-then-redeem-twice run. -/
theorem C1_witness :
    (RedisService.store_otp "998931159963" "482913" false
      ⟨[], [("998931159963", ⟨"John", "Doe", some 42⟩)]⟩).1 = true ∧
    ∃ t rt u b s2 db2,
      LoginView.post "482913" noFaults
        (RedisService.store_otp "998931159963" "482913" false
          ⟨[], [("998931159963", ⟨"John", "Doe", some 42⟩)]⟩).2
        [] "u1" 0 7 = (.success t rt u b, s2, db2) ∧
      lookupKey "482913" s2.otpStore = none ∧
      (LoginView.post "482913" noFaults s2 db2 "u2" 0 7).1 =
        .invalidOrExpiredCode :=
  C1_redeem_exactly_once
    ⟨[], [("998931159963", ⟨"John", "Doe", some 42⟩)]⟩ []
    "998931159963" "482913" "u1" "u2" 0 7 ⟨"John", "Doe", some 42⟩ (by rfl)

/-- C5: redeeming a live code whose identity has no stored pending
profile yields the ProfileNotFound outcome, yet the PendingOTP record is
deleted: a second redeem of the same code fails with InvalidOrExpiredCode
even though the first attempt issued no tokens. -/
theorem C5_profile_missing_still_consumes (s : RedisState) (db : List Account)
    (code phone newId newId2 : String) (now key : Nat)
    (hcode : lookupKey code s.otpStore = some ⟨code, phone⟩)
    (hud : lookupKey phone s.userStore = none) :
    LoginView.post code noFaults s db newId now key =
      (.profileNotFound, (RedisService.delete_otp code false s).2, db) ∧
    lookupKey code ((RedisService.delete_otp code false s).2).otpStore = none ∧
    (LoginView.post code noFaults (RedisService.delete_otp code false s).2 db
      newId2 now key).1 = .invalidOrExpiredCode := by
  have hgo : RedisService.get_otp_data code false s = some ⟨code, phone⟩ := by
    show lookupKey code s.otpStore = some ⟨code, phone⟩
    exact hcode
  have hv := verify_otp_hit code false false s ⟨code, phone⟩ hgo rfl
  have hu : RedisService.get_user_data (OTPData.phone_number ⟨code, phone⟩) false
      (RedisService.delete_otp code false s).2 = none := by
    show lookupKey phone s.userStore = none
    exact hud
  refine ⟨loginPost_of_no_profile code noFaults s _ db newId now key
    ⟨code, phone⟩ hv hu, ?_, ?_⟩
  · show lookupKey code (delKey code s.otpStore) = none
    exact lookupKey_delKey_self _ _
  · have hmiss : RedisService.get_otp_data code false
        (RedisService.delete_otp code false s).2 = none := by
      show lookupKey code (delKey code s.otpStore) = none
      exact lookupKey_delKey_self _ _
    rw [loginPost_of_verify_none code noFaults _ _ _ newId2 now key
      (verify_otp_miss code false false _ hmiss)]

/-- C5 witness: a concrete live code with no pending profile. -/
theorem C5_witness :
    LoginView.post "482913" noFaults
      ⟨[("482913", ⟨"482913", "998931159963"⟩)], []⟩ [] "u1" 0 7 =
      (.profileNotFound,
       (RedisService.delete_otp "482913" false
         ⟨[("482913", ⟨"482913", "998931159963"⟩)], []⟩).2, []) ∧
    lookupKey "482913"
      ((RedisService.delete_otp "482913" false
        ⟨[("482913", ⟨"482913", "998931159963"⟩)], []⟩).2).otpStore = none ∧
    (LoginView.post "482913" noFaults
      (RedisService.delete_otp "482913" false
        ⟨[("482913", ⟨"482913", "998931159963"⟩)], []⟩).2 [] "u2" 0 7).1 =
      .invalidOrExpiredCode :=
  C5_profile_missing_still_consumes
    ⟨[("482913", ⟨"482913", "998931159963"⟩)], []⟩ []
    "482913" "998931159963" "u1" "u2" 0 7 (by rfl) (by rfl)

/-- C4: redeeming a live code with a stored profile creates exactly one
new verified Account from the snapshot and reports is_new_user = true
when the identity has no Account yet, and touches no Account while
reporting is_new_user = false when one already exists. -/
theorem C4_account_creation (s : RedisState) (db : List Account)
    (code phone newId : String) (now key : Nat) (ud : UserData)
    (hcode : lookupKey code s.otpStore = some ⟨code, phone⟩)
    (hud : lookupKey phone s.userStore = some ud) :
    (db.find? (fun a => a.phone_number = phone) = none →
      LoginView.post code noFaults s db newId now key =
        (.success
          (JWTTokenGenerator.generate_token
            ⟨newId, phone, ud.first_name, ud.last_name, none, ud.tg_user_id, true⟩
            now key)
          (JWTTokenGenerator.generate_refresh_token
            ⟨newId, phone, ud.first_name, ud.last_name, none, ud.tg_user_id, true⟩
            now key)
          ⟨newId, phone, ud.first_name, ud.last_name, none, ud.tg_user_id, true⟩
          true,
         (RedisService.delete_user_data phone false
           (RedisService.delete_otp code false s).2).2,
         db ++ [⟨newId, phone, ud.first_name, ud.last_name, none,
           ud.tg_user_id, true⟩])) ∧
    (∀ u, db.find? (fun a => a.phone_number = phone) = some u →
      LoginView.post code noFaults s db newId now key =
        (.success
          (JWTTokenGenerator.generate_token u now key)
          (JWTTokenGenerator.generate_refresh_token u now key)
          u false,
         (RedisService.delete_user_data phone false
           (RedisService.delete_otp code false s).2).2,
         db)) := by
  have hgo : RedisService.get_otp_data code false s = some ⟨code, phone⟩ := by
    show lookupKey code s.otpStore = some ⟨code, phone⟩
    exact hcode
  have hv := verify_otp_hit code false false s ⟨code, phone⟩ hgo rfl
  have hu : RedisService.get_user_data (OTPData.phone_number ⟨code, phone⟩) false
      (RedisService.delete_otp code false s).2 = some ud := by
    show lookupKey phone s.userStore = some ud
    exact hud
  have hpost := loginPost_of_profile code noFaults s _ db newId now key
    ⟨code, phone⟩ ud hv hu
  constructor
  · intro hnew
    rw [hpost, resolveUser_new phone ud newId db hnew]
    rfl
  · intro u hold
    rw [hpost, resolveUser_found phone ud newId db u hold]
    rfl


/-- C4 witness: both branches evaluated on concrete directories. -/
theorem C4_witness :
    (([] : List Account).find?
        (fun a => a.phone_number = "998931159963") = none →
      LoginView.post "482913" noFaults
        ⟨[("482913", ⟨"482913", "998931159963"⟩)],
         [("998931159963", ⟨"John", "Doe", some 42⟩)]⟩ [] "u1" 0 7 =
        (.success
          (JWTTokenGenerator.generate_token
            ⟨"u1", "998931159963", "John", "Doe", none, some 42, true⟩ 0 7)
          (JWTTokenGenerator.generate_refresh_token
            ⟨"u1", "998931159963", "John", "Doe", none, some 42, true⟩ 0 7)
          ⟨"u1", "998931159963", "John", "Doe", none, some 42, true⟩
          true,
         (RedisService.delete_user_data "998931159963" false
           (RedisService.delete_otp "482913" false
             ⟨[("482913", ⟨"482913", "998931159963"⟩)],
              [("998931159963", ⟨"John", "Doe", some 42⟩)]⟩).2).2,
         [] ++ [⟨"u1", "998931159963", "John", "Doe", none, some 42, true⟩])) ∧
    (∀ u, ([] : List Account).find?
        (fun a => a.phone_number = "998931159963") = some u →
      LoginView.post "482913" noFaults
        ⟨[("482913", ⟨"482913", "998931159963"⟩)],
         [("998931159963", ⟨"John", "Doe", some 42⟩)]⟩ [] "u1" 0 7 =
        (.success
          (JWTTokenGenerator.generate_token u 0 7)
          (JWTTokenGenerator.generate_refresh_token u 0 7)
          u false,
         (RedisService.delete_user_data "998931159963" false
           (RedisService.delete_otp "482913" false
             ⟨[("482913", ⟨"482913", "998931159963"⟩)],
              [("998931159963", ⟨"John", "Doe", some 42⟩)]⟩).2).2,
         [])) :=
  C4_account_creation
    ⟨[("482913", ⟨"482913", "998931159963"⟩)],
     [("998931159963", ⟨"John", "Doe", some 42⟩)]⟩ []
    "482913" "998931159963" "u1" 0 7 ⟨"John", "Doe", some 42⟩ (by rfl) (by rfl)

/-- C9: when the store lookup of a live code succeeds but the delete step
fails with a store error, verify_otp still reports success and returns the
record while the store is left unchanged, so the code stays live and a
subsequent redeem of the same code succeeds again: one-time use is not
guaranteed under a store fault at the delete step. -/
theorem C9_delete_fault_leaves_code_live (s : RedisState) (code : String)
    (d : OTPData) (hcode : lookupKey code s.otpStore = some d)
    (hmatch : d.otp = code) :
    RedisService.verify_otp code false true s = (some d, s) ∧
    (RedisService.verify_otp code false false s).1 = some d := by
  have hgo : RedisService.get_otp_data code false s = some d := by
    show lookupKey code s.otpStore = some d
    exact hcode
  exact ⟨verify_otp_hit code false true s d hgo hmatch,
    by rw [verify_otp_hit code false false s d hgo hmatch]⟩

/-- C9 witness: a concrete delete-fault redemption. -/
theorem C9_witness :
    RedisService.verify_otp "482913" false true
      ⟨[("482913", ⟨"482913", "998931159963"⟩)], []⟩ =
      (some ⟨"482913", "998931159963"⟩,
       ⟨[("482913", ⟨"482913", "998931159963"⟩)], []⟩) ∧
    (RedisService.verify_otp "482913" false false
      ⟨[("482913", ⟨"482913", "998931159963"⟩)], []⟩).1 =
      some ⟨"482913", "998931159963"⟩ :=
  C9_delete_fault_leaves_code_live
    ⟨[("482913", ⟨"482913", "998931159963"⟩)], []⟩ "482913"
    ⟨"482913", "998931159963"⟩ (by rfl) (by rfl)

/-- C2 counterexample: a freshly issued refresh token (its `type` claim is
"refresh") presented to the bearer-authentication path is ACCEPTED, not
rejected: `JWTAuthentication.authenticate` never inspects the `type`
claim, so the final conjunct of the claim fails on the code. -/
theorem C2_counterexample :
    (JWTTokenGenerator.generate_refresh_token
      ⟨"u1", "998931159963", "John", "Doe", none, some 42, true⟩ 0 7).payload.typ
      = some "refresh" ∧
    JWTAuthentication.authenticate
      (JWTTokenGenerator.generate_refresh_token
        ⟨"u1", "998931159963", "John", "Doe", none, some 42, true⟩ 0 7) 7 0
      [⟨"u1", "998931159963", "John", "Doe", none, some 42, true⟩] =
      .ok ⟨"u1", "998931159963", "John", "Doe", none, some 42, true⟩ := by
  constructor
  · rfl
  · rfl

/-- C2 amended: verify of an access token yields the subject id with no
refresh discriminator, verify of a refresh token yields the discriminator
set, and a token without the discriminator is rejected by the refresh
endpoint; however a refresh token presented to the bearer-authentication
path is accepted for any known subject (the source never checks the
discriminator there), not rejected. -/
theorem C2_token_discriminator (u : Account) (now key : Nat)
    (db : List Account) (hid : u.id ≠ "")
    (hfind : db.find? (fun a => a.id = u.id) = some u) :
    JWTTokenGenerator.verify_token
      (JWTTokenGenerator.generate_token u now key) key now =
      some ⟨u.id, some u.phone_number, none,
        now + JWTTokenGenerator.accessLifetime, now⟩ ∧
    JWTTokenGenerator.verify_token
      (JWTTokenGenerator.generate_refresh_token u now key) key now =
      some ⟨u.id, none, some "refresh",
        now + JWTTokenGenerator.refreshLifetime, now⟩ ∧
    RefreshTokenView.post (JWTTokenGenerator.generate_token u now key)
      key now db = .invalidRefreshToken ∧
    JWTAuthentication.authenticate
      (JWTTokenGenerator.generate_refresh_token u now key) key now db =
      .ok u := by
  have hacc : JWTTokenGenerator.verify_token
      (JWTTokenGenerator.generate_token u now key) key now =
      some ⟨u.id, some u.phone_number, none,
        now + JWTTokenGenerator.accessLifetime, now⟩ := by
    simp [JWTTokenGenerator.verify_token, JWTTokenGenerator.generate_token,
      JWTTokenGenerator.accessLifetime]
  have href : JWTTokenGenerator.verify_token
      (JWTTokenGenerator.generate_refresh_token u now key) key now =
      some ⟨u.id, none, some "refresh",
        now + JWTTokenGenerator.refreshLifetime, now⟩ := by
    simp [JWTTokenGenerator.verify_token,
      JWTTokenGenerator.generate_refresh_token,
      JWTTokenGenerator.refreshLifetime]
  refine ⟨hacc, href, ?_, ?_⟩
  · simp [RefreshTokenView.post, hacc]
  · simp [JWTAuthentication.authenticate, href, hid, hfind]

/-- C2 amended witness: the four conjuncts at a concrete account. -/
theorem C2_witness :
    JWTTokenGenerator.verify_token
      (JWTTokenGenerator.generate_token
        ⟨"u1", "998931159963", "John", "Doe", none, some 42, true⟩ 0 7) 7 0 =
      some ⟨"u1", some "998931159963", none,
        0 + JWTTokenGenerator.accessLifetime, 0⟩ ∧
    JWTTokenGenerator.verify_token
      (JWTTokenGenerator.generate_refresh_token
        ⟨"u1", "998931159963", "John", "Doe", none, some 42, true⟩ 0 7) 7 0 =
      some ⟨"u1", none, some "refresh",
        0 + JWTTokenGenerator.refreshLifetime, 0⟩ ∧
    RefreshTokenView.post
      (JWTTokenGenerator.generate_token
        ⟨"u1", "998931159963", "John", "Doe", none, some 42, true⟩ 0 7) 7 0
      [⟨"u1", "998931159963", "John", "Doe", none, some 42, true⟩] =
      .invalidRefreshToken ∧
    JWTAuthentication.authenticate
      (JWTTokenGenerator.generate_refresh_token
        ⟨"u1", "998931159963", "John", "Doe", none, some 42, true⟩ 0 7) 7 0
      [⟨"u1", "998931159963", "John", "Doe", none, some 42, true⟩] =
      .ok ⟨"u1", "998931159963", "John", "Doe", none, some 42, true⟩ :=
  C2_token_discriminator
    ⟨"u1", "998931159963", "John", "Doe", none, some 42, true⟩ 0 7
    [⟨"u1", "998931159963", "John", "Doe", none, some 42, true⟩]
    (by decide) (by rfl)

/-- C8: a successful refresh call issues only a new access token (the
response carries no refresh token and the issued token has no refresh
discriminator); the presented refresh token is not rotated and, tokens
being stateless, still verifies unchanged afterwards. -/
theorem C8_refresh_not_rotated (t : Token) (u : Account) (key now : Nat)
    (db : List Account) (hkey : t.key = key)
    (hexp : now < t.payload.exp) (htyp : t.payload.typ = some "refresh")
    (hfind : db.find? (fun a => a.id = t.payload.user_id) = some u) :
    RefreshTokenView.post t key now db =
      .ok ⟨JWTTokenGenerator.generate_token u now key, none⟩ ∧
    (JWTTokenGenerator.generate_token u now key).payload.typ = none ∧
    JWTTokenGenerator.verify_token t key now = some t.payload := by
  have hverify : JWTTokenGenerator.verify_token t key now = some t.payload := by
    simp [JWTTokenGenerator.verify_token, hkey, hexp]
  refine ⟨?_, rfl, hverify⟩
  simp [RefreshTokenView.post, hverify, htyp, hfind]

/-- C8 witness: a concrete refresh call. -/
theorem C8_witness :
    RefreshTokenView.post
      (JWTTokenGenerator.generate_refresh_token
        ⟨"u1", "998931159963", "John", "Doe", none, some 42, true⟩ 0 7) 7 5
      [⟨"u1", "998931159963", "John", "Doe", none, some 42, true⟩] =
      .ok ⟨JWTTokenGenerator.generate_token
        ⟨"u1", "998931159963", "John", "Doe", none, some 42, true⟩ 5 7, none⟩ ∧
    (JWTTokenGenerator.generate_token
      ⟨"u1", "998931159963", "John", "Doe", none, some 42, true⟩ 5 7).payload.typ
      = none ∧
    JWTTokenGenerator.verify_token
      (JWTTokenGenerator.generate_refresh_token
        ⟨"u1", "998931159963", "John", "Doe", none, some 42, true⟩ 0 7) 7 5 =
      some (JWTTokenGenerator.generate_refresh_token
        ⟨"u1", "998931159963", "John", "Doe", none, some 42, true⟩ 0 7).payload :=
  C8_refresh_not_rotated
    (JWTTokenGenerator.generate_refresh_token
      ⟨"u1", "998931159963", "John", "Doe", none, some 42, true⟩ 0 7)
    ⟨"u1", "998931159963", "John", "Doe", none, some 42, true⟩ 7 5
    [⟨"u1", "998931159963", "John", "Doe", none, some 42, true⟩]
    (by rfl) (by decide) (by rfl) (by rfl)

/-- C3: a store failure during the redeem lookup is reported to the caller
as the 401 InvalidOrExpiredCode outcome - byte-for-byte the not-found
response - not as a retryable 5xx: the except branch of get_otp_data
returns None on a backend fault, and LoginView.post cannot distinguish it
from a missing code (the LoginResult type of the embedding has no 5xx
outcome because the source produces none).  The second conjunct shows the
genuinely-absent code producing the identical response. -/
theorem C3_store_fault_reported_as_not_found :
    LoginView.post "482913" ⟨true, false, false, false⟩
      ⟨[("482913", ⟨"482913", "998931159963"⟩)],
       [("998931159963", ⟨"John", "Doe", some 42⟩)]⟩ [] "u1" 0 7 =
      (.invalidOrExpiredCode,
       ⟨[("482913", ⟨"482913", "998931159963"⟩)],
        [("998931159963", ⟨"John", "Doe", some 42⟩)]⟩, []) ∧
    LoginView.post "999999" noFaults
      ⟨[("482913", ⟨"482913", "998931159963"⟩)],
       [("998931159963", ⟨"John", "Doe", some 42⟩)]⟩ [] "u1" 0 7 =
      (.invalidOrExpiredCode,
       ⟨[("482913", ⟨"482913", "998931159963"⟩)],
        [("998931159963", ⟨"John", "Doe", some 42⟩)]⟩, []) := by
  exact ⟨rfl, rfl⟩

/-- C6: the fetch-and-invalidate of verify_otp is not atomic: under the
interleaving get1, get2, del1, del2 of two concurrent redeemers of the
same live code, both threads pass the lookup before either deletes and
BOTH observe success, so more than one concurrent caller can succeed. -/
theorem C6_concurrent_double_success :
    (run2 "482913" [true, false, true, false] initThread initThread
      ⟨[("482913", ⟨"482913", "998931159963"⟩)], []⟩).1.res =
      some ⟨"482913", "998931159963"⟩ ∧
    (run2 "482913" [true, false, true, false] initThread initThread
      ⟨[("482913", ⟨"482913", "998931159963"⟩)], []⟩).2.1.res =
      some ⟨"482913", "998931159963"⟩ := by
  exact ⟨rfl, rfl⟩
